import Mathlib

/-!
Verification of the ASTER delta-neutral trading system against its
natural-language specification.

The Python source is shallowly embedded: monetary amounts and quantities
become `ℚ`, fallible network fetches become `Except String _` values that are
passed in as arguments, and the orchestrator methods become pure functions of
those fetched snapshots.  Methods of `DeltaNeutralLogic` live in
`strategy_logic.py`, which is not part of the source tree (only its callers
and its test suite are); those are modelled from the specification and marked
as such in their doc comments.
-/

set_option linter.unusedVariables false

namespace Aster

/-- A spot account balance row, as returned by the spot `/api/v1/account`
endpoint: an asset name with its free and locked quantities.  The optional
`value_usd` field models the `'value_usd'` key that
`get_comprehensive_portfolio_data` adds to non-stablecoin rows. -/
structure SpotBalance where
  asset : String
  free : ℚ
  locked : ℚ
  value_usd : Option ℚ := none
deriving DecidableEq

/-- A perpetual position row from the perp `/fapi/v3/account` endpoint.
`positionAmt` is signed: positive is long, negative is short; `notional` is
the signed USD size of the position. -/
structure PerpPosition where
  symbol : String
  positionAmt : ℚ
  entryPrice : ℚ
  markPrice : ℚ
  unrealizedProfit : ℚ
  notional : ℚ := 0
deriving DecidableEq

/-- The perp account snapshot: per-asset available balances plus the
position list. -/
structure PerpAccount where
  assets : List (String × ℚ)
  positions : List PerpPosition
deriving DecidableEq

/-- Per-symbol exchange metadata.  Only the fields the embedded operations
read are kept: the symbol, its base asset and its trading status. -/
structure SymbolInfo where
  symbol : String
  baseAsset : String
  status : String
deriving DecidableEq

/-- Exchange info: the list of symbol records. -/
structure ExchangeInfo where
  symbols : List SymbolInfo
deriving DecidableEq

/-- A `LOT_SIZE` filter.  The source derives the quantity precision from the
exponent of the decimal string of `stepSize`
(`abs(Decimal(step_size_str).as_tuple().exponent)`); the embedding carries
that exponent directly. -/
structure LotFilter where
  stepSizeExp : ℤ
deriving DecidableEq

/-- A book ticker reduced to its bid and ask prices.  A book-ticker oracle
`String → Option (ℚ × ℚ)` maps a symbol to its (bid, ask) pair when the
fetch succeeds and to `none` when it fails. -/
abbrev TickerOracle := String → Option (ℚ × ℚ)

/-- `AsterApiManager._truncate`: truncates a value to a given precision
without rounding.  Negative precision is clamped to zero; precision zero
floors the value; otherwise the value is scaled by `10^precision`, floored,
and scaled back. -/
def _truncate (value : ℚ) (precision : ℤ) : ℚ :=
  let p : ℤ := if precision < 0 then 0 else precision
  if p = 0 then ((Int.floor value : ℤ) : ℚ)
  else
    let factor : ℚ := (10 : ℚ) ^ p.toNat
    ((Int.floor (value * factor) : ℤ) : ℚ) / factor

end Aster

namespace Aster

/-- C7: for every `v > 0` and every natural precision `n`, truncation is
conservative: `_truncate v n ≤ v`, and it loses less than one unit in the
last place: `v - _truncate v n < 10⁻ⁿ`. -/
theorem truncate_le_and_lt_ulp (v : ℚ) (n : ℕ) (hv : 0 < v) :
    _truncate v n ≤ v ∧ v - _truncate v n < 1 / 10 ^ n := by
  have hn : ¬ ((n : ℤ) < 0) := by exact_mod_cast Int.not_lt.mpr (Int.ofNat_nonneg n)
  rcases Nat.eq_zero_or_pos n with h0 | hpos
  · subst h0
    have hdef0 : _truncate v 0 = ((Int.floor v : ℤ) : ℚ) := by
      simp [_truncate]
    have hle := Int.floor_le v
    have hlt := Int.lt_floor_add_one v
    simp only [Nat.cast_zero]
    rw [hdef0]
    constructor
    · exact hle
    · norm_num
      exact Int.fract_lt_one v
  · have hne : ((n : ℤ)) ≠ 0 := by exact_mod_cast hpos.ne'
    have hfac : (0 : ℚ) < (10 : ℚ) ^ n := by positivity
    have htoNat : ((n : ℤ)).toNat = n := Int.toNat_ofNat n
    have hdef : _truncate v n =
        ((Int.floor (v * (10 : ℚ) ^ n) : ℤ) : ℚ) / (10 : ℚ) ^ n := by
      simp only [_truncate, hn, if_false]
      rw [if_neg hne, htoNat]
    constructor
    · rw [hdef, div_le_iff₀ hfac]
      exact Int.floor_le (v * (10 : ℚ) ^ n)
    · rw [hdef]
      have hlt : v * (10 : ℚ) ^ n < (Int.floor (v * (10 : ℚ) ^ n) : ℚ) + 1 :=
        Int.lt_floor_add_one _
      rw [sub_lt_iff_lt_add, div_add_div_same, lt_div_iff₀ hfac]
      linarith

/-- Witness for C7 at `v = 3/2`, `n = 1`. -/
theorem truncate_le_and_lt_ulp_witness :
    _truncate (3 / 2) 1 ≤ 3 / 2 ∧ (3 / 2 : ℚ) - _truncate (3 / 2) 1 < 1 / 10 ^ 1 :=
  truncate_le_and_lt_ulp (3 / 2) 1 (by norm_num)

/-- Round a rational to the nearest integer, ties to even — the semantics of
the built-in `round` used by `rebalance_usdt_50_50`. -/
def roundHalfEven (q : ℚ) : ℤ :=
  let f := Int.floor q
  let r := q - (f : ℚ)
  if r < 1 / 2 then f
  else if 1 / 2 < r then f + 1
  else if f % 2 = 0 then f else f + 1

/-- `round(q, n)` of the source language: round half to even at `n` decimal
places. -/
def pyRound (q : ℚ) (n : ℕ) : ℚ :=
  ((roundHalfEven (q * 10 ^ n) : ℤ) : ℚ) / 10 ^ n

/-- Transfer direction between the spot and perpetual wallets. -/
inductive TransferDirection where
  | SPOT_TO_PERP
  | PERP_TO_SPOT
deriving DecidableEq

/-- The record built by `rebalance_usdt_50_50`.  `executed_amount` models the
amount actually handed to `transfer_between_spot_and_perp` (the rounded
figure), `none` when no transfer is performed. -/
structure RebalanceResult where
  current_spot_usdt : ℚ
  current_perp_usdt : ℚ
  total_usdt : ℚ
  target_each : ℚ
  transfer_needed : Bool
  transfer_amount : ℚ
  transfer_direction : Option TransferDirection
  executed_amount : Option ℚ
deriving DecidableEq

/-- `AsterApiManager.rebalance_usdt_50_50`, as a function of the two fetched
balance snapshots.  The spot USDT figure is the `free` field of the first
balance row whose asset is USDT (default 0); the perp USDT figure is the
first USDT entry of the perp account's asset list (default 0). -/
def rebalance_usdt_50_50 (spot_balances : List SpotBalance)
    (perp_assets : List (String × ℚ)) : RebalanceResult :=
  let spot_usdt := ((spot_balances.find? (fun b => b.asset = "USDT")).map
    (fun b => b.free)).getD 0
  let perp_usdt := ((perp_assets.find? (fun a => a.1 = "USDT")).map
    (fun a => a.2)).getD 0
  let total_usdt := spot_usdt + perp_usdt
  let target_each := total_usdt / 2
  let spot_difference := target_each - spot_usdt
  let base : RebalanceResult :=
    { current_spot_usdt := spot_usdt
      current_perp_usdt := perp_usdt
      total_usdt := total_usdt
      target_each := target_each
      transfer_needed := |spot_difference| > 1
      transfer_amount := |spot_difference|
      transfer_direction := none
      executed_amount := none }
  if |spot_difference| > 1 then
    let transfer_amount := pyRound |spot_difference| 6
    if spot_difference > 0 then
      { base with transfer_direction := some TransferDirection.PERP_TO_SPOT
                  executed_amount := some transfer_amount }
    else
      { base with transfer_direction := some TransferDirection.SPOT_TO_PERP
                  executed_amount := some transfer_amount }
  else base

/-- C8: `rebalance_usdt_50_50` targets `(spot + perp) / 2`, is a no-op
exactly when `|target − spot| ≤ 1`, otherwise transfers the round-to-6-places
amount in the sign-appropriate direction; on spot USDT = 150, perp USDT = 50
it plans a 50 USDT transfer from spot to perp. -/
theorem rebalance_usdt_50_50_spec (spot_balances : List SpotBalance)
    (perp_assets : List (String × ℚ)) :
    (let spot := ((spot_balances.find? (fun b => b.asset = "USDT")).map
        (fun b => b.free)).getD 0
     let perp := ((perp_assets.find? (fun a => a.1 = "USDT")).map
        (fun a => a.2)).getD 0
     let delta := (spot + perp) / 2 - spot
     let r := rebalance_usdt_50_50 spot_balances perp_assets
     r.target_each = (spot + perp) / 2 ∧
     r.transfer_needed = decide (|delta| > 1) ∧
     r.executed_amount = (if |delta| > 1 then some (pyRound |delta| 6) else none) ∧
     r.transfer_direction =
       (if |delta| > 1 then
          (if delta > 0 then some TransferDirection.PERP_TO_SPOT
           else some TransferDirection.SPOT_TO_PERP)
        else none)) ∧
    rebalance_usdt_50_50 [{ asset := "USDT", free := 150, locked := 0 }]
        [("USDT", 50)] =
      { current_spot_usdt := 150, current_perp_usdt := 50, total_usdt := 200,
        target_each := 100, transfer_needed := true, transfer_amount := 50,
        transfer_direction := some TransferDirection.SPOT_TO_PERP,
        executed_amount := some 50 } := by
  constructor
  · simp only [rebalance_usdt_50_50]
    split
    · rename_i h
      split
      · simp_all [decide_eq_true_eq]
      · simp_all [decide_eq_true_eq]
    · rename_i h
      simp_all [decide_eq_true_eq]
  · norm_num [rebalance_usdt_50_50, List.find?, pyRound, roundHalfEven]

/-! ### Dictionaries

The source builds Python dicts by comprehension; a dict is embedded as an
association list with unique keys in insertion order, where inserting an
existing key overwrites its value in place and inserting a fresh key
appends. -/

/-- Insert into a dict: overwrite in place when the key exists, append
otherwise. -/
def dictInsert (d : List (String × ℚ)) (k : String) (v : ℚ) :
    List (String × ℚ) :=
  if d.any (fun kv => kv.1 = k) then
    d.map (fun kv => if kv.1 = k then (k, v) else kv)
  else d ++ [(k, v)]

/-- Build a dict from a list of key-value pairs, later entries overwriting
earlier ones — the semantics of a Python dict comprehension. -/
def buildDict (entries : List (String × ℚ)) : List (String × ℚ) :=
  entries.foldl (fun d kv => dictInsert d kv.1 kv.2) []

/-- Dict lookup with a default, `d.get(k, dflt)`. -/
def dictGetD (d : List (String × ℚ)) (k : String) (dflt : ℚ) : ℚ :=
  ((d.find? (fun kv => kv.1 = k)).map (fun kv => kv.2)).getD dflt

/-! ### Position analysis -/

/-- An analyzed position, as produced by the strategy engine's position
classifier.  `current_apr` models the `'current_apr'` key that
`get_comprehensive_portfolio_data` later adds to delta-neutral entries. -/
structure AnalyzedPosition where
  symbol : String
  spot_balance : ℚ
  perp_position : ℚ
  net_delta : ℚ
  total_size : ℚ
  imbalance_pct : ℚ
  is_delta_neutral : Bool
  position_value_usd : ℚ
  current_apr : Option ℚ := none
deriving DecidableEq

/-- Derive one analyzed position from a perp position and its spot holding:
`netDelta = spotQty + perpQty`, `totalSize = max(|spotQty|, |perpQty|)`,
`imbalancePct = |netDelta|/totalSize·100` (0 when `totalSize = 0`),
`isDeltaNeutral = imbalancePct ≤ 2`, `positionValueUsd = |perpQty|·markPrice`. -/
def mkAnalyzed (p : PerpPosition) (spotQty : ℚ) : AnalyzedPosition :=
  let net := spotQty + p.positionAmt
  let total := max |spotQty| |p.positionAmt|
  let imb := if total > 0 then |net| / total * 100 else 0
  { symbol := p.symbol
    spot_balance := spotQty
    perp_position := p.positionAmt
    net_delta := net
    total_size := total
    imbalance_pct := imb
    is_delta_neutral := decide (imb ≤ 2)
    position_value_usd := |p.positionAmt| * p.markPrice }

/-- Resolve a perp position against the perp symbol map: positions with a
zero amount are skipped, as are positions whose symbol is absent from the
map; otherwise its base asset is returned alongside it. -/
def resolvePerp (perp_symbol_map : List SymbolInfo) (p : PerpPosition) :
    Option (PerpPosition × String) :=
  if p.positionAmt = 0 then none
  else match perp_symbol_map.find? (fun s => s.symbol = p.symbol) with
    | some si => some (p, si.baseAsset)
    | none => none

/-- Modelled from the spec: `DeltaNeutralLogic.analyze_position_data` lives in
`strategy_logic.py`, which is not in the source tree (only its callers and its
test suite are).  Per the spec, every perp position with a nonzero
`positionAmt` whose base asset resolves in the perp symbol map yields an
analyzed entry keyed by symbol, with the spot quantity read from the balances
dict (default 0); every remaining positive spot holding appears as a
spot-only entry with `perp_position = 0`, `imbalance_pct = 100` and
`is_delta_neutral = false` (which is exactly `mkAnalyzed` on a zero perp
position). -/
def analyze_position_data (perp_positions : List PerpPosition)
    (spot_balances : List (String × ℚ))
    (perp_symbol_map : List SymbolInfo) : List (String × AnalyzedPosition) :=
  let resolved : List (PerpPosition × String) :=
    perp_positions.filterMap (resolvePerp perp_symbol_map)
  let perpEntries := resolved.map (fun pb =>
    (pb.1.symbol, mkAnalyzed pb.1 (dictGetD spot_balances pb.2 0)))
  let covered := resolved.map (fun pb => pb.2)
  let spotOnly := spot_balances.filterMap (fun kv =>
    if kv.2 > 0 ∧ ¬ covered.contains kv.1 then
      some (kv.1 ++ "USDT",
        mkAnalyzed { symbol := kv.1 ++ "USDT", positionAmt := 0, entryPrice := 0,
                     markPrice := 0, unrealizedProfit := 0 } kv.2)
    else none)
  perpEntries ++ spotOnly

/-- Refresh a position's mark price with the mid-price of its book ticker,
`(bid + ask) / 2`, keeping the stale mark price when the ticker fetch
failed.  A ticker is modelled as either absent or carrying both prices. -/
def updateMarkPrice (tickers : TickerOracle) (p : PerpPosition) : PerpPosition :=
  match tickers p.symbol with
  | some ba => { p with markPrice := (ba.1 + ba.2) / 2 }
  | none => p

/-- `AsterApiManager.analyze_current_positions`: on any failed fetch the
analysis is `{}`; otherwise the spot dict maps each asset to `free + locked`,
every active position's mark price is refreshed in place, and the full
position list is handed to the classifier. -/
def analyze_current_positions (perp_info : Except String ExchangeInfo)
    (spot_info : Except String ExchangeInfo)
    (perp_account : Except String PerpAccount)
    (spot_balances : Except String (List SpotBalance))
    (tickers : TickerOracle) : List (String × AnalyzedPosition) :=
  match perp_info, spot_info, perp_account, spot_balances with
  | .ok pinfo, .ok _, .ok pa, .ok sb =>
      let spot_lookup := buildDict (sb.map (fun b => (b.asset, b.free + b.locked)))
      let perp_positions := pa.positions.map (fun p =>
        if p.positionAmt = 0 then p else updateMarkPrice tickers p)
      analyze_position_data perp_positions spot_lookup pinfo.symbols
  | _, _, _, _ => []

/-! ### Comprehensive portfolio snapshot -/

/-- Step 2 of `get_comprehensive_portfolio_data`: keep only active positions
and refresh their mark prices. -/
def comp_raw_perp_positions (pa : PerpAccount) (tickers : TickerOracle) :
    List PerpPosition :=
  (pa.positions.filter (fun p => p.positionAmt ≠ 0)).map (updateMarkPrice tickers)

/-- Step 3 of `get_comprehensive_portfolio_data`: keep balances with a
nonzero free or locked amount and enrich non-stablecoin rows with
`value_usd = (free + locked) · bid`, or 0 when the spot ticker probe fails. -/
def comp_processed_spot_balances (sb : List SpotBalance)
    (spot_tickers : TickerOracle) : List SpotBalance :=
  let processed := sb.filter (fun b => b.free > 0 ∨ b.locked > 0)
  processed.map (fun b =>
    if b.asset = "USDT" ∨ b.asset = "USDC" ∨ b.asset = "USDF" then b
    else match spot_tickers (b.asset ++ "USDT") with
      | some ba => { b with value_usd := some ((b.free + b.locked) * ba.1) }
      | none => { b with value_usd := some 0 })

/-- Step 4 of `get_comprehensive_portfolio_data`: the spot dict maps each
processed balance's asset to its `free` amount only, and the active
mark-refreshed positions are handed to the classifier. -/
def comp_analyzed_positions (pa : PerpAccount) (sb : List SpotBalance)
    (pinfo : ExchangeInfo) (tickers : TickerOracle) :
    List (String × AnalyzedPosition) :=
  let raw := comp_raw_perp_positions pa tickers
  let processed := sb.filter (fun b => b.free > 0 ∨ b.locked > 0)
  let spot_lookup := buildDict (processed.map (fun b => (b.asset, b.free)))
  analyze_position_data raw spot_lookup pinfo.symbols

/-- Step 5 of `get_comprehensive_portfolio_data`: annotate each delta-neutral
analyzed position whose latest funding rate is available with
`current_apr = rate · 3 · 365 · 100`. -/
def enrich_current_apr (funding : String → Option ℚ)
    (ps : List AnalyzedPosition) : List AnalyzedPosition :=
  ps.map (fun p =>
    if p.is_delta_neutral then
      match funding p.symbol with
      | some rate => { p with current_apr := some (rate * 3 * 365 * 100) }
      | none => p
    else p)

/-- The structured dictionary returned by
`get_comprehensive_portfolio_data`. -/
structure PortfolioData where
  perp_account_info : PerpAccount
  raw_perp_positions : List PerpPosition
  spot_balances : List SpotBalance
  analyzed_positions : List AnalyzedPosition
deriving DecidableEq

/-- `AsterApiManager.get_comprehensive_portfolio_data` as a function of the
four fanned-out primary fetches and the ticker/funding oracles.  When any of
the four primary fetches fails the method returns the empty dict, embedded
as `none`. -/
def get_comprehensive_portfolio_data
    (perp_account : Except String PerpAccount)
    (spot_balances : Except String (List SpotBalance))
    (perp_info : Except String ExchangeInfo)
    (spot_info : Except String ExchangeInfo)
    (perp_tickers : TickerOracle) (spot_tickers : TickerOracle)
    (funding : String → Option ℚ) : Option PortfolioData :=
  match perp_account, spot_balances, perp_info, spot_info with
  | .ok pa, .ok sb, .ok pinfo, .ok _ =>
      some { perp_account_info := pa
             raw_perp_positions := comp_raw_perp_positions pa perp_tickers
             spot_balances := comp_processed_spot_balances sb spot_tickers
             analyzed_positions := enrich_current_apr funding
               ((comp_analyzed_positions pa sb pinfo perp_tickers).map Prod.snd) }
  | _, _, _, _ => none

/-- Whether an embedded fetch failed. -/
def fetchFailed {α : Type} : Except String α → Bool
  | .error _ => true
  | .ok _ => false

/-- C1 (counterexample): with concrete fetch results in which exactly one of
the four primary fetches (here the spot exchange info) fails,
`get_comprehensive_portfolio_data` returns the empty dict rather than a
partial snapshot populated from the other three branches. -/
theorem comprehensive_single_failure_counterexample :
    get_comprehensive_portfolio_data
      (Except.ok { assets := [("USDT", 100)], positions := [] })
      (Except.ok [{ asset := "USDT", free := 100, locked := 0 }])
      (Except.ok { symbols := [] })
      (Except.error "HTTP 500")
      (fun _ => none) (fun _ => none) (fun _ => none) = none := rfl

/-- C1 (amended): whenever exactly one of the four primary parallel fetches
fails, `get_comprehensive_portfolio_data` discards the whole snapshot and
returns the empty dict (`none`). -/
theorem comprehensive_single_failure_returns_empty
    (perp_account : Except String PerpAccount)
    (spot_balances : Except String (List SpotBalance))
    (perp_info : Except String ExchangeInfo)
    (spot_info : Except String ExchangeInfo)
    (pt st : TickerOracle) (funding : String → Option ℚ)
    (h : (if fetchFailed perp_account then 1 else 0) +
         (if fetchFailed spot_balances then 1 else 0) +
         (if fetchFailed perp_info then 1 else 0) +
         (if fetchFailed spot_info then 1 else 0) = 1) :
    get_comprehensive_portfolio_data perp_account spot_balances perp_info
      spot_info pt st funding = none := by
  rcases perp_account with e | pa <;> rcases spot_balances with e' | sb <;>
    rcases perp_info with e'' | pinfo <;> rcases spot_info with e''' | sinfo <;>
    simp_all [get_comprehensive_portfolio_data, fetchFailed]

/-- Witness for C1's amended theorem: one failing branch out of four. -/
theorem comprehensive_single_failure_returns_empty_witness :
    get_comprehensive_portfolio_data
      (Except.error "timeout")
      (Except.ok ([] : List SpotBalance))
      (Except.ok { symbols := [] })
      (Except.ok { symbols := [] })
      (fun _ => none) (fun _ => none) (fun _ => none) = none :=
  comprehensive_single_failure_returns_empty _ _ _ _ _ _ _ (by decide)

/-! ### Dict lemmas -/

/-- Inserting a fresh key appends it. -/
theorem dictInsert_of_fresh (d : List (String × ℚ)) (k : String) (v : ℚ)
    (h : ∀ kv ∈ d, kv.1 ≠ k) : dictInsert d k v = d ++ [(k, v)] := by
  have : d.any (fun kv => kv.1 = k) = false := by
    simp only [List.any_eq_false, decide_eq_true_eq]
    exact h
  simp [dictInsert, this]

/-- Folding fresh inserts over a key-distinct list just appends it. -/
theorem foldl_dictInsert_append (l d : List (String × ℚ))
    (hl : (l.map Prod.fst).Nodup)
    (hd : ∀ kv ∈ d, ∀ kv' ∈ l, kv.1 ≠ kv'.1) :
    l.foldl (fun d kv => dictInsert d kv.1 kv.2) d = d ++ l := by
  induction l generalizing d with
  | nil => simp
  | cons kv rest ih =>
    rw [List.map_cons, List.nodup_cons] at hl
    simp only [List.foldl_cons]
    rw [dictInsert_of_fresh d kv.1 kv.2
      (fun kv' h' => hd kv' h' kv (List.mem_cons_self kv rest))]
    rw [ih (d ++ [(kv.1, kv.2)])]
    · simp
    · exact hl.2
    · intro kv' hkv' kv'' hkv''
      rcases List.mem_append.mp hkv' with hmem | hmem
      · exact hd kv' hmem kv'' (List.mem_cons_of_mem kv hkv'')
      · have hk : kv' = (kv.1, kv.2) := by simpa using hmem
        subst hk
        intro hcontra
        exact hl.1 (hcontra ▸ List.mem_map_of_mem Prod.fst hkv'')

/-- A key-distinct list is its own dict. -/
theorem buildDict_eq_self (l : List (String × ℚ))
    (h : (l.map Prod.fst).Nodup) : buildDict l = l := by
  simpa [buildDict] using foldl_dictInsert_append l [] h (by simp)

/-- `updateMarkPrice` never changes the position amount. -/
theorem updateMarkPrice_positionAmt (t : TickerOracle) (p : PerpPosition) :
    (updateMarkPrice t p).positionAmt = p.positionAmt := by
  unfold updateMarkPrice
  cases t p.symbol <;> rfl

/-- Lookup with default 0 over `(asset, free)` pairs is unchanged by
dropping the zero-free rows, provided assets are distinct and free amounts
nonnegative. -/
theorem dictGetD_filter_pos (sb : List SpotBalance) (a : String)
    (hfree : ∀ b ∈ sb, 0 ≤ b.free)
    (hnd : (sb.map (fun b => b.asset)).Nodup) :
    dictGetD (sb.map (fun b => (b.asset, b.free))) a 0
      = dictGetD ((sb.filter (fun b => b.free > 0)).map
          (fun b => (b.asset, b.free))) a 0 := by
  induction sb with
  | nil => rfl
  | cons b rest ih =>
    rw [List.map_cons, List.nodup_cons] at hnd
    have hnd' : (rest.map (fun b => b.asset)).Nodup := hnd.2
    have hnotmem : b.asset ∉ rest.map (fun b => b.asset) := hnd.1
    by_cases hba : b.asset = a
    · subst hba
      by_cases hpos : b.free > 0
      · simp [dictGetD, List.filter_cons, hpos, List.find?]
      · have hzero : b.free = 0 :=
          le_antisymm (not_lt.mp hpos) (hfree b (List.mem_cons_self b rest))
        have hnone : ((rest.filter (fun b => b.free > 0)).map
            (fun b => (b.asset, b.free))).find?
              (fun kv => kv.1 = b.asset) = none := by
          rw [List.find?_eq_none]
          intro kv hkv
          simp only [List.mem_map, List.mem_filter] at hkv
          obtain ⟨b', ⟨hb', _⟩, rfl⟩ := hkv
          simp only [decide_eq_true_eq]
          intro hcontra
          exact hnotmem (hcontra ▸ List.mem_map_of_mem (fun b => b.asset) hb')
        simp [dictGetD, List.filter_cons, hpos, List.find?, hnone, hzero]
    · have hba' : (decide (b.asset = a)) = false := by
        simpa using hba
      by_cases hpos : b.free > 0
      · simpa [dictGetD, List.filter_cons, hpos, List.find?, hba'] using
          ih (fun b' h' => hfree b' (List.mem_cons_of_mem b h')) hnd'
      · simpa [dictGetD, List.filter_cons, hpos, List.find?, hba'] using
          ih (fun b' h' => hfree b' (List.mem_cons_of_mem b h')) hnd'

/-- Resolving the in-place mark-refreshed full position list gives the same
outcome as resolving the pre-filtered, then mark-refreshed active list: zero
positions are skipped by the resolver either way, and the refresh keeps both
the amount and the symbol. -/
theorem resolve_map_update_eq (positions : List PerpPosition)
    (t : TickerOracle) (m : List SymbolInfo) :
    (positions.map (fun p =>
        if p.positionAmt = 0 then p else updateMarkPrice t p)).filterMap
      (resolvePerp m)
      = ((positions.filter (fun p => p.positionAmt ≠ 0)).map
          (updateMarkPrice t)).filterMap (resolvePerp m) := by
  induction positions with
  | nil => rfl
  | cons p rest ih =>
    by_cases h : p.positionAmt = 0
    · have hres : resolvePerp m p = none := by simp [resolvePerp, h]
      have hcond : ¬ ((decide (p.positionAmt ≠ 0)) = true) := by simp [h]
      rw [List.map_cons, if_pos h, List.filter_cons, if_neg hcond]
      simp only [List.filterMap_cons, hres]
      exact ih
    · have hcond : (decide (p.positionAmt ≠ 0)) = true := by simp [h]
      rw [List.map_cons, if_neg h, List.filter_cons, if_pos hcond,
        List.map_cons, List.filterMap_cons, List.filterMap_cons, ih]

/-- Dropping zero-quantity rows does not change a `filterMap` that ignores
nonpositive quantities. -/
theorem filterMap_filter_pos {α : Type} (sb : List SpotBalance)
    (g : String × ℚ → Option α)
    (hg : ∀ kv, kv.2 ≤ 0 → g kv = none) :
    (sb.map (fun b => (b.asset, b.free))).filterMap g
      = ((sb.filter (fun b => b.free > 0)).map
          (fun b => (b.asset, b.free))).filterMap g := by
  induction sb with
  | nil => rfl
  | cons b rest ih =>
    by_cases hpos : b.free > 0
    · have hcond : (decide (b.free > 0)) = true := by simp [hpos]
      rw [List.map_cons, List.filter_cons, if_pos hcond, List.map_cons,
        List.filterMap_cons, List.filterMap_cons, ih]
    · have hz : g (b.asset, b.free) = none := hg _ (not_lt.mp hpos)
      have hcond : ¬ ((decide (b.free > 0)) = true) := by simp [hpos]
      rw [List.map_cons, List.filter_cons, if_neg hcond]
      simp only [List.filterMap_cons, hz]
      exact ih

/-- C10: when every spot balance row of an account snapshot has a zero
locked amount (with nonnegative free amounts and one row per asset),
`analyze_current_positions` and the position analysis step of
`get_comprehensive_portfolio_data` produce identical analyzed positions,
even though the former feeds `free + locked` and the latter `free` into the
classifier. -/
theorem analyze_eq_comprehensive_of_locked_zero
    (pinfo sinfo : ExchangeInfo) (pa : PerpAccount)
    (sb : List SpotBalance) (tickers : TickerOracle)
    (hlock : ∀ b ∈ sb, b.locked = 0)
    (hfree : ∀ b ∈ sb, 0 ≤ b.free)
    (hnd : (sb.map (fun b => b.asset)).Nodup) :
    analyze_current_positions (Except.ok pinfo) (Except.ok sinfo)
        (Except.ok pa) (Except.ok sb) tickers
      = comp_analyzed_positions pa sb pinfo tickers := by
  have hmapA : sb.map (fun b => (b.asset, b.free + b.locked))
      = sb.map (fun b => (b.asset, b.free)) := by
    apply List.map_congr_left
    intro b hb
    rw [hlock b hb, add_zero]
  have hfilter : sb.filter (fun b => b.free > 0 ∨ b.locked > 0)
      = sb.filter (fun b => b.free > 0) := by
    apply List.filter_congr
    intro b hb
    simp [hlock b hb]
  have hndA : ((sb.map (fun b => (b.asset, b.free))).map Prod.fst).Nodup := by
    simpa [List.map_map, Function.comp] using hnd
  have hndF : (((sb.filter (fun b => b.free > 0)).map
      (fun b => (b.asset, b.free))).map Prod.fst).Nodup := by
    simp only [List.map_map, Function.comp]
    exact List.Nodup.sublist
      (List.Sublist.map _ (List.filter_sublist sb)) hnd
  simp only [analyze_current_positions, comp_analyzed_positions,
    comp_raw_perp_positions, hmapA, hfilter,
    buildDict_eq_self _ hndA, buildDict_eq_self _ hndF]
  simp only [analyze_position_data, resolve_map_update_eq pa.positions tickers
    pinfo.symbols]
  congr 1
  · apply List.map_congr_left
    intro pb hpb
    rw [dictGetD_filter_pos sb pb.2 hfree hnd]
  · rw [filterMap_filter_pos sb _ ?_]
    intro kv hkv
    rw [if_neg]
    intro hcontra
    exact absurd hcontra.1 (not_lt.mpr hkv)

/-- Witness for C10: a concrete all-unlocked snapshot with one matched
position and one spot-only asset. -/
theorem analyze_eq_comprehensive_of_locked_zero_witness :
    analyze_current_positions
        (Except.ok { symbols := [{ symbol := "BTCUSDT", baseAsset := "BTC",
                                   status := "TRADING" }] })
        (Except.ok { symbols := [] })
        (Except.ok { assets := [],
                     positions := [{ symbol := "BTCUSDT", positionAmt := -1/2,
                                     entryPrice := 20000, markPrice := 20000,
                                     unrealizedProfit := 0 }] })
        (Except.ok [{ asset := "BTC", free := 1/2, locked := 0 },
                    { asset := "ETH", free := 2, locked := 0 }])
        (fun _ => none)
      = comp_analyzed_positions
          { assets := [],
            positions := [{ symbol := "BTCUSDT", positionAmt := -1/2,
                            entryPrice := 20000, markPrice := 20000,
                            unrealizedProfit := 0 }] }
          [{ asset := "BTC", free := 1/2, locked := 0 },
           { asset := "ETH", free := 2, locked := 0 }]
          { symbols := [{ symbol := "BTCUSDT", baseAsset := "BTC",
                          status := "TRADING" }] }
          (fun _ => none) := by
  apply analyze_eq_comprehensive_of_locked_zero
  · intro b hb
    simp only [List.mem_cons, List.not_mem_nil, or_false] at hb
    rcases hb with rfl | rfl <;> rfl
  · intro b hb
    simp only [List.mem_cons, List.not_mem_nil, or_false] at hb
    rcases hb with rfl | rfl <;> norm_num
  · decide

/-! ### Opening a delta-neutral position -/

/-- The sizing record of the strategy engine.

Modelled from the spec: `DeltaNeutralLogic.calculate_position_size` lives in
`strategy_logic.py`, which is not in the source tree.  Per the spec it
returns a record in which `existing_spot_usd + new_spot_capital_required =
total_usd_capital` and the perp short quantity equals the total spot
quantity owned after the trade, i.e. `total_usd_capital / spot_price`. -/
structure PositionSizing where
  spot_quantity_to_buy : ℚ
  new_spot_capital_required : ℚ
  total_perp_quantity_to_short : ℚ
  existing_spot_usd_utilized : ℚ
  perp_capital_required : ℚ
deriving DecidableEq

/-- Modelled from the spec (see `PositionSizing`): sizing a delta-neutral
deployment of `total_usd_capital` at `spot_price`, re-using
`existing_spot_usd` of spot inventory.  At 1x, the perp leg's capital equals
the deployed capital's perp half; the spec leaves its exact figure advisory,
so it is recorded as `total_usd_capital / 2`. -/
def calculate_position_size (total_usd_capital spot_price existing_spot_usd : ℚ) :
    PositionSizing :=
  { spot_quantity_to_buy := (total_usd_capital - existing_spot_usd) / spot_price
    new_spot_capital_required := total_usd_capital - existing_spot_usd
    total_perp_quantity_to_short := total_usd_capital / spot_price
    existing_spot_usd_utilized := existing_spot_usd
    perp_capital_required := total_usd_capital / 2 }

/-- The trade plan computed by `prepare_and_execute_dn_position` (its
`details` dictionary). -/
structure TradePlan where
  symbol : String
  capital_to_deploy : ℚ
  spot_price : ℚ
  lot_size_filter : Option LotFilter
  ideal_perp_qty : ℚ
  final_perp_qty : ℚ
  existing_spot_quantity : ℚ
  spot_qty_to_buy : ℚ
  spot_capital_to_buy : ℚ
deriving DecidableEq

/-- Remove every (non-overlapping, left-to-right) occurrence of the
character run `USDT` — the semantics of the source's
`symbol.replace('USDT', '')`. -/
def removeUSDT : List Char → List Char
  | 'U' :: 'S' :: 'D' :: 'T' :: rest => removeUSDT rest
  | c :: rest => c :: removeUSDT rest
  | [] => []

/-- The base asset of a symbol: the symbol with "USDT" removed. -/
def base_asset_of (symbol : String) : String :=
  String.mk (removeUSDT symbol.data)

/-- The existing spot quantity: the sum of `free` over the balance rows
whose asset equals the base asset. -/
def existingSpotQuantity (base_asset : String)
    (spot_balances : List SpotBalance) : ℚ :=
  ((spot_balances.filter (fun b => b.asset = base_asset)).map
    (fun b => b.free)).sum

/-- The ideal perp quantity: what the sizing engine says to short, given the
capital, the spot price and the USD value of the existing holding. -/
def idealPerpQty (capital_to_deploy spot_price existing_spot_quantity : ℚ) : ℚ :=
  (calculate_position_size capital_to_deploy spot_price
    (existing_spot_quantity * spot_price)).total_perp_quantity_to_short

/-- The final perp quantity: the ideal quantity truncated to the `LOT_SIZE`
step precision, kept as-is when the filter is absent. -/
def finalPerpQty (ideal_perp_qty : ℚ) (lot_size_filter : Option LotFilter) : ℚ :=
  match lot_size_filter with
  | some f => _truncate ideal_perp_qty f.stepSizeExp.natAbs
  | none => ideal_perp_qty

/-- Steps 3–6 of `prepare_and_execute_dn_position`: compute the plan's
quantities; the spot buy tops the existing holding up to the final perp
quantity, never below zero.  A final quantity of zero or less aborts the
plan (`none`). -/
def plan_dn_position (symbol : String) (capital_to_deploy : ℚ)
    (spot_price : ℚ) (lot_size_filter : Option LotFilter)
    (spot_balances : List SpotBalance) : Option TradePlan :=
  if finalPerpQty (idealPerpQty capital_to_deploy spot_price
        (existingSpotQuantity (base_asset_of symbol) spot_balances))
      lot_size_filter ≤ 0 then none
  else
    some { symbol := symbol
           capital_to_deploy := capital_to_deploy
           spot_price := spot_price
           lot_size_filter := lot_size_filter
           ideal_perp_qty := idealPerpQty capital_to_deploy spot_price
             (existingSpotQuantity (base_asset_of symbol) spot_balances)
           final_perp_qty := finalPerpQty (idealPerpQty capital_to_deploy
               spot_price
               (existingSpotQuantity (base_asset_of symbol) spot_balances))
             lot_size_filter
           existing_spot_quantity :=
             existingSpotQuantity (base_asset_of symbol) spot_balances
           spot_qty_to_buy := max 0 (finalPerpQty (idealPerpQty
                 capital_to_deploy spot_price
                 (existingSpotQuantity (base_asset_of symbol) spot_balances))
               lot_size_filter
             - existingSpotQuantity (base_asset_of symbol) spot_balances)
           spot_capital_to_buy := max 0 (finalPerpQty (idealPerpQty
                 capital_to_deploy spot_price
                 (existingSpotQuantity (base_asset_of symbol) spot_balances))
               lot_size_filter
             - existingSpotQuantity (base_asset_of symbol) spot_balances)
             * spot_price }

/-- C3 (counterexample): deploying 1000 USD at spot price 50 while already
holding 30 units of the base asset yields a plan with
`final_perp_qty = 20` and `spot_qty_to_buy = 0`, so
`existing_spot_quantity + spot_qty_to_buy = 30 ≠ 20 = final_perp_qty`: the
perp short does not equal the total spot the operator will own. -/
theorem plan_dn_position_imbalance_counterexample :
    (plan_dn_position "BTCUSDT" 1000 50 none
        [{ asset := "BTC", free := 30, locked := 0 }]).map
      (fun p => (p.existing_spot_quantity, p.spot_qty_to_buy, p.final_perp_qty))
      = some (30, 0, 20) ∧
    (30 : ℚ) + 0 ≠ 20 := by
  have hbase : base_asset_of "BTCUSDT" = "BTC" := rfl
  have he : existingSpotQuantity "BTC"
      [{ asset := "BTC", free := 30, locked := 0 }] = 30 := by
    simp [existingSpotQuantity]
  have hideal : idealPerpQty 1000 50 30 = 20 := by
    norm_num [idealPerpQty, calculate_position_size]
  have hmax : max (0 : ℚ) (20 - 30) = 0 := by
    rw [max_eq_left (by norm_num)]
  constructor
  · rw [plan_dn_position, hbase, he, hideal]
    rw [if_neg (by norm_num [finalPerpQty])]
    simp [finalPerpQty, hmax]
  · norm_num

/-- C3 (amended): every produced trade plan satisfies
`existing_spot_quantity + spot_qty_to_buy = max existing_spot_quantity
final_perp_qty`; the claimed invariant `existing + buy = final_perp_qty`
therefore holds exactly when the existing spot holding does not already
exceed the final perp quantity. -/
theorem plan_dn_position_tops_up_to_max (symbol : String)
    (capital_to_deploy spot_price : ℚ) (lot_size_filter : Option LotFilter)
    (spot_balances : List SpotBalance) (p : TradePlan)
    (h : plan_dn_position symbol capital_to_deploy spot_price lot_size_filter
      spot_balances = some p) :
    p.existing_spot_quantity + p.spot_qty_to_buy
        = max p.existing_spot_quantity p.final_perp_qty ∧
      (p.existing_spot_quantity ≤ p.final_perp_qty →
        p.existing_spot_quantity + p.spot_qty_to_buy = p.final_perp_qty) := by
  unfold plan_dn_position at h
  split at h
  · exact absurd h (by simp)
  · obtain rfl := (Option.some.inj h).symm
    simp only
    refine ⟨?_, fun hle => ?_⟩
    · rw [← max_add_add_left, add_zero, add_sub_cancel]
    · rw [← max_add_add_left, add_zero, add_sub_cancel, max_eq_right hle]

/-- Witness for C3's amended theorem at a plan with no existing spot. -/
theorem plan_dn_position_tops_up_to_max_witness :
    (0 : ℚ) + 20 = max 0 20 ∧ ((0 : ℚ) ≤ 20 → (0 : ℚ) + 20 = 20) := by
  have hbase : base_asset_of "BTCUSDT" = "BTC" := rfl
  have h := plan_dn_position_tops_up_to_max "BTCUSDT" 1000 50 none []
    { symbol := "BTCUSDT", capital_to_deploy := 1000, spot_price := 50,
      lot_size_filter := none, ideal_perp_qty := 20, final_perp_qty := 20,
      existing_spot_quantity := 0, spot_qty_to_buy := 20,
      spot_capital_to_buy := 1000 }
    (by rw [plan_dn_position, hbase]
        have he : existingSpotQuantity "BTC" [] = 0 := rfl
        have hideal : idealPerpQty 1000 50 0 = 20 := by
          norm_num [idealPerpQty, calculate_position_size]
        rw [he, hideal]
        rw [if_neg (by norm_num [finalPerpQty])]
        simp [finalPerpQty]
        norm_num)
  exact h

/-! ### Opening and closing, with submission traces -/

/-- The observable remote actions of one `prepare_and_execute_dn_position`
invocation, in submission order: the step-1 parallel fetch (spot book
ticker, `LOT_SIZE` filter, spot balances, perp account), the leverage call,
and the two execution legs. -/
inductive Event where
  | fetchParallel
  | setLeverage
  | perpOrder
  | spotOrder
deriving DecidableEq

/-- The data produced by the step-1 parallel fetch. -/
structure OpenFetch where
  spot_bid_price : ℚ
  lot_size_filter : Option LotFilter
  spot_balances : List SpotBalance
  perp_account : PerpAccount
deriving DecidableEq

/-- One execution leg's outcome: the venue's order response, or the captured
exception (`asyncio.gather(..., return_exceptions=True)` hands exceptions
back as values). -/
abbrev ExecResult := Except String String

instance : DecidableEq ExecResult := fun a b =>
  match a, b with
  | Except.ok x, Except.ok y =>
      if h : x = y then isTrue (by rw [h]) else isFalse (by simp [h])
  | Except.error x, Except.error y =>
      if h : x = y then isTrue (by rw [h]) else isFalse (by simp [h])
  | Except.ok _, Except.error _ => isFalse (by simp)
  | Except.error _, Except.ok _ => isFalse (by simp)

/-- The structured result dictionary of `prepare_and_execute_dn_position`
and `execute_dn_position_close`. -/
structure TradeDetails where
  success : Bool
  message : String
  details : Option TradePlan := none
  perp_order : Option ExecResult := none
  spot_order : Option ExecResult := none
deriving DecidableEq

/-- `AsterApiManager.prepare_and_execute_dn_position`, paired with the trace
of remote actions it submits.  The step-1 fetch is a plain gather, so a
failed branch raises and is converted by the outer handler into
`success = false`; the execution gather instead captures each leg's
exception as that leg's result value while `success` is set to `true`. -/
def prepare_and_execute_dn_position (symbol : String)
    (capital_to_deploy : ℚ) (dry_run : Bool)
    (fetch : Except String OpenFetch) (leverage_ok : Bool)
    (perp_exec spot_exec : ExecResult) : TradeDetails × List Event :=
  match fetch with
  | .error e =>
      ({ success := false, message := "Failed to open position: " ++ e },
       [Event.fetchParallel])
  | .ok f =>
      if ((f.perp_account.positions.filter (fun p => p.positionAmt ≠ 0)).find?
            (fun p => p.symbol = symbol ∧ p.positionAmt < 0)).isSome then
        ({ success := false,
           message := "Cannot open position. Already have a short position." },
         [Event.fetchParallel])
      else if leverage_ok = false then
        ({ success := false, message := "Failed to set leverage to 1x." },
         [Event.fetchParallel, Event.setLeverage])
      else
        match plan_dn_position symbol capital_to_deploy f.spot_bid_price
            f.lot_size_filter f.spot_balances with
        | none =>
            ({ success := false,
               message := "Final perpetual quantity is zero or less after rounding." },
             [Event.fetchParallel, Event.setLeverage])
        | some p =>
            if dry_run then
              ({ success := true,
                 message := "Dry run successful. Trade details calculated.",
                 details := some p },
               [Event.fetchParallel, Event.setLeverage])
            else
              ({ success := true,
                 message := "Successfully opened position for " ++ symbol ++ ".",
                 details := some p,
                 perp_order := some perp_exec,
                 spot_order := some (if p.spot_capital_to_buy > 1 then spot_exec
                   else Except.ok "None") },
               [Event.fetchParallel, Event.setLeverage, Event.perpOrder]
                 ++ (if p.spot_capital_to_buy > 1 then [Event.spotOrder] else []))

/-- `AsterApiManager.execute_dn_position_close`: look the symbol up in a
fresh comprehensive snapshot, refuse when the snapshot is empty, the symbol
is absent, or either leg is zero; otherwise submit both closing orders
concurrently, capture each leg's outcome and report success. -/
def execute_dn_position_close (symbol : String)
    (perp_account : Except String PerpAccount)
    (spot_balances : Except String (List SpotBalance))
    (perp_info spot_info : Except String ExchangeInfo)
    (perp_tickers spot_tickers : TickerOracle) (funding : String → Option ℚ)
    (perp_exec spot_exec : ExecResult) : TradeDetails :=
  match get_comprehensive_portfolio_data perp_account spot_balances perp_info
      spot_info perp_tickers spot_tickers funding with
  | none => { success := false, message := "Could not retrieve portfolio data." }
  | some pd =>
    match pd.analyzed_positions.find? (fun p => p.symbol = symbol) with
    | none =>
        { success := false,
          message := "No position found for symbol " ++ symbol ++ "." }
    | some pos =>
        if |pos.perp_position| = 0 ∨ pos.spot_balance = 0 then
          { success := false,
            message := "Position for " ++ symbol ++
              " is not a valid delta-neutral pair to close (perp or spot leg is zero)." }
        else
          { success := true,
            message := "Successfully closed position for " ++ symbol ++ ".",
            perp_order := some perp_exec, spot_order := some spot_exec }

/-- A concrete no-inventory opening fetch used to evaluate full runs. -/
def openFetchFixture : OpenFetch :=
  { spot_bid_price := 50, lot_size_filter := none, spot_balances := [],
    perp_account := { assets := [], positions := [] } }

/-- The plan computed on `openFetchFixture` with 1000 USD of capital. -/
def planFixture : TradePlan :=
  { symbol := "BTCUSDT", capital_to_deploy := 1000, spot_price := 50,
    lot_size_filter := none, ideal_perp_qty := 20, final_perp_qty := 20,
    existing_spot_quantity := 0, spot_qty_to_buy := 20,
    spot_capital_to_buy := 1000 }

/-- Evaluating the plan on the fixture. -/
theorem plan_fixture_eval :
    plan_dn_position "BTCUSDT" 1000 50 none [] = some planFixture := by
  have hbase : base_asset_of "BTCUSDT" = "BTC" := rfl
  rw [plan_dn_position, hbase]
  have he : existingSpotQuantity "BTC" [] = 0 := rfl
  have hideal : idealPerpQty 1000 50 0 = 20 := by
    norm_num [idealPerpQty, calculate_position_size]
  rw [he, hideal]
  rw [if_neg (by norm_num [finalPerpQty])]
  simp [finalPerpQty, planFixture]
  norm_num

/-- Evaluating a full non-dry run on the fixture, with the perp leg
succeeding and the spot leg raising a transport error: both legs are
recorded, `success` is `true`, and all four events are submitted in order. -/
theorem prepare_full_run_eval :
    prepare_and_execute_dn_position "BTCUSDT" 1000 false
        (Except.ok openFetchFixture) true
        (Except.ok "orderId 17") (Except.error "Transport error 502")
      = ({ success := true,
           message := "Successfully opened position for BTCUSDT.",
           details := some planFixture,
           perp_order := some (Except.ok "orderId 17"),
           spot_order := some (Except.error "Transport error 502") },
         [Event.fetchParallel, Event.setLeverage, Event.perpOrder,
          Event.spotOrder]) := by
  rw [prepare_and_execute_dn_position]
  rw [if_neg (by simp [openFetchFixture])]
  rw [if_neg (by simp)]
  rw [show openFetchFixture.spot_bid_price = 50 from rfl,
    show openFetchFixture.lot_size_filter = none from rfl,
    show openFetchFixture.spot_balances = [] from rfl]
  rw [plan_fixture_eval]
  norm_num [planFixture]
  rfl

/-- C4 (counterexample): on a concrete full run, the submitted trace is
fetch, then leverage, then the two orders — the parallel fetch comes first,
so `setPerpLeverage` does not strictly precede the parallel fetch as
claimed. -/
theorem leverage_after_fetch_counterexample :
    (prepare_and_execute_dn_position "BTCUSDT" 1000 false
        (Except.ok openFetchFixture) true
        (Except.ok "orderId 17") (Except.error "Transport error 502")).2
      = [Event.fetchParallel, Event.setLeverage, Event.perpOrder,
         Event.spotOrder] ∧
    List.indexOf Event.fetchParallel
        (prepare_and_execute_dn_position "BTCUSDT" 1000 false
          (Except.ok openFetchFixture) true
          (Except.ok "orderId 17") (Except.error "Transport error 502")).2
      < List.indexOf Event.setLeverage
        (prepare_and_execute_dn_position "BTCUSDT" 1000 false
          (Except.ok openFetchFixture) true
          (Except.ok "orderId 17") (Except.error "Transport error 502")).2 := by
  rw [prepare_full_run_eval]
  exact ⟨rfl, by decide⟩

/-- C4 (amended): in every invocation, the parallel fetch of spot price,
`LOT_SIZE` filter, spot balances and perp account strictly precedes the
`setPerpLeverage` call, and that call strictly precedes order execution:
whenever the leverage event is in the trace it sits right after the fetch,
and whenever an order event is in the trace the fetch and the leverage call
already precede it. -/
theorem fetch_precedes_leverage_precedes_execution (symbol : String)
    (capital : ℚ) (dry_run : Bool) (fetch : Except String OpenFetch)
    (leverage_ok : Bool) (perp_exec spot_exec : ExecResult) :
    (Event.setLeverage ∈ (prepare_and_execute_dn_position symbol capital
        dry_run fetch leverage_ok perp_exec spot_exec).2 →
      ((prepare_and_execute_dn_position symbol capital dry_run fetch
          leverage_ok perp_exec spot_exec).2).take 2
        = [Event.fetchParallel, Event.setLeverage]) ∧
    ((Event.perpOrder ∈ (prepare_and_execute_dn_position symbol capital
          dry_run fetch leverage_ok perp_exec spot_exec).2 ∨
      Event.spotOrder ∈ (prepare_and_execute_dn_position symbol capital
          dry_run fetch leverage_ok perp_exec spot_exec).2) →
      ((prepare_and_execute_dn_position symbol capital dry_run fetch
          leverage_ok perp_exec spot_exec).2).take 3
        = [Event.fetchParallel, Event.setLeverage, Event.perpOrder]) := by
  unfold prepare_and_execute_dn_position
  rcases fetch with e | f
  · simp
  · split
    · simp
    · split
      · simp
      · split
        · simp
        · split
          · simp
          · split <;> simp

/-- Witness for C4's amended theorem on the concrete full run. -/
theorem fetch_precedes_leverage_precedes_execution_witness :
    ((prepare_and_execute_dn_position "BTCUSDT" 1000 false
        (Except.ok openFetchFixture) true
        (Except.ok "orderId 17") (Except.error "Transport error 502")).2).take 2
      = [Event.fetchParallel, Event.setLeverage] ∧
    ((prepare_and_execute_dn_position "BTCUSDT" 1000 false
        (Except.ok openFetchFixture) true
        (Except.ok "orderId 17") (Except.error "Transport error 502")).2).take 3
      = [Event.fetchParallel, Event.setLeverage, Event.perpOrder] := by
  have h := fetch_precedes_leverage_precedes_execution "BTCUSDT" 1000 false
    (Except.ok openFetchFixture) true
    (Except.ok "orderId 17") (Except.error "Transport error 502")
  refine ⟨h.1 ?_, h.2 (Or.inl ?_)⟩ <;> rw [prepare_full_run_eval] <;> decide

/-- C5 (counterexample): on a concrete non-dry run whose spot leg raises a
transport error during the execution phase, the returned result still has
`success = true`; the error is only recorded in the `spot_order` field. -/
theorem exec_leg_error_reported_success_counterexample :
    (prepare_and_execute_dn_position "BTCUSDT" 1000 false
        (Except.ok openFetchFixture) true
        (Except.ok "orderId 17") (Except.error "Transport error 502")).1.success
      = true ∧
    (prepare_and_execute_dn_position "BTCUSDT" 1000 false
        (Except.ok openFetchFixture) true
        (Except.ok "orderId 17") (Except.error "Transport error 502")).1.spot_order
      = some (Except.error "Transport error 502") := by
  rw [prepare_full_run_eval]
  exact ⟨rfl, rfl⟩

/-- C6: whenever `setPerpLeverage` fails to set 1x leverage,
`prepare_and_execute_dn_position` returns `success = false` and neither the
perp nor the spot order is ever submitted. -/
theorem leverage_failure_aborts_before_orders (symbol : String)
    (capital : ℚ) (dry_run : Bool) (fetch : Except String OpenFetch)
    (perp_exec spot_exec : ExecResult) :
    (prepare_and_execute_dn_position symbol capital dry_run fetch false
        perp_exec spot_exec).1.success = false ∧
    Event.perpOrder ∉ (prepare_and_execute_dn_position symbol capital dry_run
        fetch false perp_exec spot_exec).2 ∧
    Event.spotOrder ∉ (prepare_and_execute_dn_position symbol capital dry_run
        fetch false perp_exec spot_exec).2 := by
  rcases fetch with e | f <;> simp only [prepare_and_execute_dn_position]
  · simp
  · split
    · simp
    · simp

/-- A concrete short perp position used in the closing fixtures. -/
def shortPosFixture : PerpPosition :=
  { symbol := "BTCUSDT", positionAmt := -1/2, entryPrice := 20000,
    markPrice := 20000, unrealizedProfit := 0 }

/-- A one-symbol perp symbol map used in the closing fixtures. -/
def symbolMapFixture : List SymbolInfo :=
  [{ symbol := "BTCUSDT", baseAsset := "BTC", status := "TRADING" }]

/-- A one-row spot balance list used in the closing fixtures. -/
def spotRowsFixture : List SpotBalance :=
  [{ asset := "BTC", free := 1/2, locked := 0 }]

/-- The analyzed position the classifier derives from `shortPosFixture`
against a 1/2 BTC spot holding. -/
def analyzedFixture : AnalyzedPosition :=
  { symbol := "BTCUSDT", spot_balance := 1/2, perp_position := -1/2,
    net_delta := 0, total_size := 1/2, imbalance_pct := 0,
    is_delta_neutral := true, position_value_usd := 10000,
    current_apr := none }

/-- The comprehensive snapshot built from the closing fixtures. -/
def portfolioFixture : PortfolioData :=
  { perp_account_info := { assets := [], positions := [shortPosFixture] }
    raw_perp_positions := [shortPosFixture]
    spot_balances := [{ asset := "BTC", free := 1/2, locked := 0,
                        value_usd := some 0 }]
    analyzed_positions := [analyzedFixture] }

/-- Evaluating the comprehensive snapshot on the closing fixtures. -/
theorem portfolio_fixture_eval :
    get_comprehensive_portfolio_data
        (Except.ok { assets := [], positions := [shortPosFixture] })
        (Except.ok spotRowsFixture)
        (Except.ok { symbols := symbolMapFixture })
        (Except.ok { symbols := [] })
        (fun _ => none) (fun _ => none) (fun _ => none)
      = some portfolioFixture := by
  have hres : resolvePerp symbolMapFixture shortPosFixture
      = some (shortPosFixture, "BTC") := by
    rw [resolvePerp, if_neg (by norm_num [shortPosFixture])]
    simp [shortPosFixture, symbolMapFixture, List.find?]
  have hdict : dictGetD [("BTC", 1/2)] "BTC" 0 = 1/2 := by
    simp [dictGetD, List.find?]
  have hmk : mkAnalyzed shortPosFixture (1/2) = analyzedFixture := by
    simp only [mkAnalyzed, shortPosFixture, analyzedFixture]
    norm_num
    rw [abs_of_pos (show (0:ℚ) < 1/2 by norm_num)]
    norm_num
  have hupd : updateMarkPrice (fun _ => none) shortPosFixture
      = shortPosFixture := rfl
  have hbuild : buildDict [("BTC", 1/2)] = [("BTC", 1/2)] := rfl
  have hanalyze : analyze_position_data [shortPosFixture] [("BTC", 1/2)]
      symbolMapFixture = [("BTCUSDT", analyzedFixture)] := by
    rw [analyze_position_data]
    simp only [List.filterMap_cons, List.filterMap_nil, hres, List.map_cons,
      List.map_nil]
    rw [hdict, hmk, show shortPosFixture.symbol = "BTCUSDT" from rfl]
    rw [show (["BTC"].contains "BTC") = true from rfl]
    rw [if_neg (by simp)]
    simp
  simp only [get_comprehensive_portfolio_data, comp_raw_perp_positions,
    comp_processed_spot_balances, comp_analyzed_positions, spotRowsFixture]
  rw [show List.filter (fun p => decide (p.positionAmt ≠ 0)) [shortPosFixture]
      = [shortPosFixture] from by norm_num [shortPosFixture]]
  rw [show List.filter
        (fun (b : SpotBalance) => decide (b.free > 0 ∨ b.locked > 0))
        [{ asset := "BTC", free := 1/2, locked := 0 }]
      = [{ asset := "BTC", free := 1/2, locked := 0 }] from by norm_num]
  simp only [List.map_cons, List.map_nil, hupd, hbuild]
  rw [hanalyze]
  simp only [portfolioFixture, enrich_current_apr, List.map_cons,
    List.map_nil, Option.some.injEq, PortfolioData.mk.injEq]
  refine ⟨trivial, trivial, ?_, ?_⟩
  · simp [analyzedFixture]
  · simp [analyzedFixture]

/-- C5 (amended): a transport or venue error raised by an execution leg of
`prepare_and_execute_dn_position` or `execute_dn_position_close` is captured
in the corresponding `perp_order` / `spot_order` field of the structured
result while `success` remains `true`; `success = false` only arises from
failures before the execution phase. -/
theorem exec_leg_errors_captured_in_order_fields :
    (∀ (symbol : String) (capital : ℚ) (f : OpenFetch) (p : TradePlan)
        (perp_exec spot_exec : ExecResult),
      (f.perp_account.positions.filter (fun q => q.positionAmt ≠ 0)).find?
          (fun q => q.symbol = symbol ∧ q.positionAmt < 0) = none →
      plan_dn_position symbol capital f.spot_bid_price f.lot_size_filter
          f.spot_balances = some p →
      ((prepare_and_execute_dn_position symbol capital false (Except.ok f)
          true perp_exec spot_exec).1.success = true ∧
       (prepare_and_execute_dn_position symbol capital false (Except.ok f)
          true perp_exec spot_exec).1.perp_order = some perp_exec ∧
       (prepare_and_execute_dn_position symbol capital false (Except.ok f)
          true perp_exec spot_exec).1.spot_order
         = some (if p.spot_capital_to_buy > 1 then spot_exec
             else Except.ok "None"))) ∧
    (∀ (symbol : String) (pa : Except String PerpAccount)
        (sb : Except String (List SpotBalance))
        (pinfo sinfo : Except String ExchangeInfo)
        (pt st : TickerOracle) (funding : String → Option ℚ)
        (pd : PortfolioData) (pos : AnalyzedPosition)
        (perp_exec spot_exec : ExecResult),
      get_comprehensive_portfolio_data pa sb pinfo sinfo pt st funding
          = some pd →
      pd.analyzed_positions.find? (fun q => q.symbol = symbol) = some pos →
      ¬ (|pos.perp_position| = 0 ∨ pos.spot_balance = 0) →
      ((execute_dn_position_close symbol pa sb pinfo sinfo pt st funding
          perp_exec spot_exec).success = true ∧
       (execute_dn_position_close symbol pa sb pinfo sinfo pt st funding
          perp_exec spot_exec).perp_order = some perp_exec ∧
       (execute_dn_position_close symbol pa sb pinfo sinfo pt st funding
          perp_exec spot_exec).spot_order = some spot_exec)) := by
  constructor
  · intro symbol capital f p perp_exec spot_exec hshort hplan
    simp only [prepare_and_execute_dn_position, hshort, hplan]
    simp
  · intro symbol pa sb pinfo sinfo pt st funding pd pos perp_exec spot_exec
      hpd hfind hz
    simp only [execute_dn_position_close, hpd, hfind]
    rw [if_neg hz]
    exact ⟨rfl, rfl, rfl⟩

/-- Witness for C5's amended theorem: a failing spot leg on the opening run
and a failing spot leg on the closing run, both reported as `success = true`
with the error captured in the leg's field. -/
theorem exec_leg_errors_captured_in_order_fields_witness :
    ((prepare_and_execute_dn_position "BTCUSDT" 1000 false
        (Except.ok openFetchFixture) true
        (Except.ok "orderId 17") (Except.error "Transport error 502")).1.success
        = true ∧
     (prepare_and_execute_dn_position "BTCUSDT" 1000 false
        (Except.ok openFetchFixture) true
        (Except.ok "orderId 17") (Except.error "Transport error 502")).1.perp_order
        = some (Except.ok "orderId 17") ∧
     (prepare_and_execute_dn_position "BTCUSDT" 1000 false
        (Except.ok openFetchFixture) true
        (Except.ok "orderId 17") (Except.error "Transport error 502")).1.spot_order
        = some (if planFixture.spot_capital_to_buy > 1 then
            Except.error "Transport error 502" else Except.ok "None")) ∧
    ((execute_dn_position_close "BTCUSDT"
        (Except.ok { assets := [], positions := [shortPosFixture] })
        (Except.ok spotRowsFixture)
        (Except.ok { symbols := symbolMapFixture })
        (Except.ok { symbols := [] })
        (fun _ => none) (fun _ => none) (fun _ => none)
        (Except.ok "closeId 3") (Except.error "Venue error -1013")).success
        = true ∧
     (execute_dn_position_close "BTCUSDT"
        (Except.ok { assets := [], positions := [shortPosFixture] })
        (Except.ok spotRowsFixture)
        (Except.ok { symbols := symbolMapFixture })
        (Except.ok { symbols := [] })
        (fun _ => none) (fun _ => none) (fun _ => none)
        (Except.ok "closeId 3") (Except.error "Venue error -1013")).perp_order
        = some (Except.ok "closeId 3") ∧
     (execute_dn_position_close "BTCUSDT"
        (Except.ok { assets := [], positions := [shortPosFixture] })
        (Except.ok spotRowsFixture)
        (Except.ok { symbols := symbolMapFixture })
        (Except.ok { symbols := [] })
        (fun _ => none) (fun _ => none) (fun _ => none)
        (Except.ok "closeId 3") (Except.error "Venue error -1013")).spot_order
        = some (Except.error "Venue error -1013")) :=
  ⟨exec_leg_errors_captured_in_order_fields.1 "BTCUSDT" 1000 openFetchFixture
      planFixture (Except.ok "orderId 17") (Except.error "Transport error 502")
      rfl plan_fixture_eval,
   exec_leg_errors_captured_in_order_fields.2 "BTCUSDT"
      (Except.ok { assets := [], positions := [shortPosFixture] })
      (Except.ok spotRowsFixture)
      (Except.ok { symbols := symbolMapFixture })
      (Except.ok { symbols := [] })
      (fun _ => none) (fun _ => none) (fun _ => none)
      portfolioFixture analyzedFixture
      (Except.ok "closeId 3") (Except.error "Venue error -1013")
      portfolio_fixture_eval rfl (by norm_num [analyzedFixture])⟩

/-! ### Health check -/

/-- One row of the per-position PnL data collected by the health check. -/
structure PositionPnl where
  symbol : String
  position_value_usd : ℚ
  pnl_pct : Option ℚ
  imbalance_pct : ℚ
deriving DecidableEq

/-- The value returned by `perform_health_check_analysis`.  Python returns a
bare tuple, whose arity differs between the early-return branch (3 items)
and the main branch (4 items); the embedding keeps both shapes. -/
inductive HealthCheckReturn where
  | triple (warnings criticals : List String) (dn_count : ℕ)
  | quadruple (warnings criticals : List String) (dn_count : ℕ)
      (pnl : List PositionPnl)
deriving DecidableEq

/-- Modelled from the spec:
`DeltaNeutralLogic.perform_portfolio_health_analysis` lives in
`strategy_logic.py`, which is not in the source tree.  Per §4.7 it applies
the health rules to every analyzed position and returns the warning list,
the critical list and the number of delta-neutral positions; the imbalance
rule warns on every position that is not delta-neutral, and the
liquidation-based criticals need per-position liquidation data that the
analyzed snapshot does not carry, so none are produced here. -/
def perform_portfolio_health_analysis (positions : List AnalyzedPosition) :
    List String × List String × ℕ :=
  (positions.filterMap (fun p =>
      if p.is_delta_neutral = false then
        some ("WARNING: " ++ p.symbol ++ " imbalance exceeds threshold")
      else none),
   [],
   (positions.filter (fun p => p.is_delta_neutral)).length)

/-- The per-delta-neutral-position PnL and spot-value checks of
`perform_health_check_analysis` (source lines 1572–1614): find the raw perp
position for the symbol, compute the short-position PnL percent when the
entry price is positive and the position is short, warn at −25% and turn
critical at −50%, then value the spot leg at the current (mark) price and
warn below $10, critical below $5. -/
def dn_position_checks (raw : List PerpPosition) (pos : AnalyzedPosition) :
    List String × List String × PositionPnl :=
  match raw.find? (fun p => p.symbol = pos.symbol) with
  | some pp =>
      let pnl_pct : Option ℚ :=
        if pp.entryPrice > 0 ∧ pp.positionAmt < 0 then
          some ((pp.entryPrice - pp.markPrice) / pp.entryPrice * 100)
        else none
      let pnl_warns :=
        match pnl_pct with
        | some v =>
            if v ≤ -50 then [] else
            if v ≤ -25 then
              ["WARNING: " ++ pos.symbol ++ " short position PnL below -25%"]
            else []
        | none => []
      let pnl_crits :=
        match pnl_pct with
        | some v =>
            if v ≤ -50 then
              ["CRITICAL: " ++ pos.symbol ++ " short position PnL below -50%"]
            else []
        | none => []
      let spot_value_usd := pos.spot_balance * pp.markPrice
      let spot_warns :=
        if spot_value_usd < 10 ∧ ¬ spot_value_usd < 5 then
          ["WARNING: " ++ pos.symbol ++ " spot position value below $10"]
        else []
      let spot_crits :=
        if spot_value_usd < 5 then
          ["CRITICAL: " ++ pos.symbol ++ " spot position value below $5"]
        else []
      (pnl_warns ++ spot_warns, pnl_crits ++ spot_crits,
       { symbol := pos.symbol, position_value_usd := pos.position_value_usd,
         pnl_pct := pnl_pct, imbalance_pct := pos.imbalance_pct })
  | none =>
      let spot_value_usd := pos.spot_balance * 0
      let spot_warns :=
        if spot_value_usd < 10 ∧ ¬ spot_value_usd < 5 then
          ["WARNING: " ++ pos.symbol ++ " spot position value below $10"]
        else []
      let spot_crits :=
        if spot_value_usd < 5 then
          ["CRITICAL: " ++ pos.symbol ++ " spot position value below $5"]
        else []
      (spot_warns, spot_crits,
       { symbol := pos.symbol, position_value_usd := pos.position_value_usd,
         pnl_pct := none, imbalance_pct := pos.imbalance_pct })

/-- `delta_neutral_bot.perform_health_check_analysis` as a function of the
two gathered fetches (non-dict gather results degrade to `{}`) and the
ticker oracle.  When the position analysis is empty the source returns the
3-tuple `([], [], 0)`; otherwise it extends the strategy engine's portfolio
analysis with per-position PnL/spot-value checks and returns a 4-tuple. -/
def perform_health_check_analysis
    (analysis : Except String (List (String × AnalyzedPosition)))
    (account : Except String PerpAccount)
    (tickers : TickerOracle) : HealthCheckReturn :=
  let analysis_results := match analysis with | .ok a => a | .error _ => []
  let perp_account_info :=
    match account with
    | .ok a => a
    | .error _ => { assets := [], positions := [] }
  if analysis_results.isEmpty then HealthCheckReturn.triple [] [] 0
  else
    let all_positions := analysis_results.map Prod.snd
    let core := perform_portfolio_health_analysis all_positions
    let dn_positions := all_positions.filter (fun p => p.is_delta_neutral)
    let raw := (perp_account_info.positions.filter
      (fun p => p.positionAmt ≠ 0)).map (updateMarkPrice tickers)
    let extras := dn_positions.map (dn_position_checks raw)
    HealthCheckReturn.quadruple
      (core.1 ++ (extras.map (fun e => e.1)).flatten)
      (core.2.1 ++ (extras.map (fun e => e.2.1)).flatten)
      core.2.2
      (extras.map (fun e => e.2.2))

/-- C2: on a snapshot whose position analysis yields no analyzable positions,
`perform_health_check_analysis` returns the bare 3-tuple `([], [], 0)` — not
the documented 4-tuple `(warnings, criticals, dnPositionCount,
perPositionPnlData)` — so the callers that unpack four values crash there. -/
theorem health_check_empty_returns_triple :
    perform_health_check_analysis (Except.ok [])
        (Except.ok { assets := [], positions := [] }) (fun _ => none)
      = HealthCheckReturn.triple [] [] 0 ∧
    ∀ (w c : List String) (n : ℕ) (d : List PositionPnl),
      perform_health_check_analysis (Except.ok [])
          (Except.ok { assets := [], positions := [] }) (fun _ => none)
        ≠ HealthCheckReturn.quadruple w c n d := by
  refine ⟨rfl, ?_⟩
  intro w c n d h
  rw [perform_health_check_analysis] at h
  simp at h

/-! ### Funding analysis -/

/-- One user trade: its timestamp (ms), base quantity and side. Sides are
carried already upper-cased, as the source compares
`trade['side'].upper() == 'SELL'`. -/
structure PerpTrade where
  time : ℤ
  qty : ℚ
  side : String
deriving DecidableEq

/-- One income record of the funding history: the signed income and its
asset. -/
structure IncomeRecord where
  income : ℚ
  asset : String
deriving DecidableEq

/-- A trade's signed quantity: SELL negates. -/
def signedQty (t : PerpTrade) : ℚ :=
  if t.side = "SELL" then -t.qty else t.qty

/-- Stable insertion into a time-ascending list. -/
def insertByTime (t : PerpTrade) : List PerpTrade → List PerpTrade
  | [] => [t]
  | u :: rest =>
      if t.time ≤ u.time then t :: u :: rest else u :: insertByTime t rest

/-- Stable sort by ascending timestamp — the semantics of
`trades.sort(key=lambda x: int(x['time']))`. -/
def sortByTime : List PerpTrade → List PerpTrade
  | [] => []
  | t :: rest => insertByTime t (sortByTime rest)

/-- The backward walk of the analyzer: accumulate signed quantities trade by
trade; the first trade at which the running total reaches the target within
1e-6 is the position's opening trade, whose timestamp is returned. -/
def scanOpen : List PerpTrade → ℚ → ℚ → Option ℤ
  | [], _, _ => none
  | t :: rest, running, target =>
      if |running + signedQty t - target| < 1 / 1000000 then some t.time
      else scanOpen rest (running + signedQty t) target

/-- Sort ascending, then walk from the newest trade backward. -/
def find_position_start_time (trades : List PerpTrade)
    (current_pos_amount : ℚ) : Option ℤ :=
  scanOpen (sortByTime trades).reverse 0 current_pos_amount

/-- The report dictionary of `calculate_funding_for_position`. -/
structure FundingReport where
  symbol : String
  position_amount : ℚ
  position_notional : ℚ
  spot_balance : ℚ
  effective_position_value : ℚ
  position_start_time : ℤ
  funding_payments_count : ℕ
  total_funding : ℚ
  funding_percentage : ℚ
  fee_coverage_progress : ℚ
  asset : String
deriving DecidableEq

/-- The message printed when the backward walk finds no opening boundary. -/
def noBoundaryMsg : String :=
  "Could not determine the position start time from the last 1000 trades. " ++
  "The position might be older, or this is a partial position."

/-- `position_funding_analyzer.calculate_funding_for_position` as a function
of the fetched data.  Every `return None` path of the source prints a
message; the embedding returns that message as the `Except.error` payload.
The 1000-trade window and the income fetch are oracles: `trades` is the
`get_user_trades(symbol, limit=1000)` result and `income ts` the
`FUNDING_FEE` income since `ts`.  The source tests the found timestamp with
`if not position_start_time`, so a boundary at timestamp 0 is also treated
as not found. -/
def calculate_funding_for_position (symbol : String)
    (account : Except String PerpAccount)
    (spot_balances : Except String (List SpotBalance))
    (ticker : Except String (ℚ × ℚ))
    (trades : Except String (List PerpTrade))
    (income : ℤ → Except String (List IncomeRecord)) :
    Except String FundingReport :=
  match account, spot_balances, ticker with
  | .ok acc, .ok sb, .ok bidask =>
    match acc.positions.find?
        (fun p => p.symbol = symbol ∧ p.positionAmt ≠ 0) with
    | none => .error ("No open position found for " ++ symbol ++ ".")
    | some pos =>
      let current_pos_amount := pos.positionAmt
      let position_notional := pos.notional
      let unrealized_pnl := pos.unrealizedProfit
      let mark_price := bidask.1
      let base_asset := base_asset_of symbol
      let spot_balance :=
        ((sb.find? (fun b => b.asset = base_asset)).map
          (fun b => b.free)).getD 0
      let spot_value_usd := spot_balance * mark_price
      let effective_position_value :=
        spot_value_usd + |position_notional| + unrealized_pnl
      match trades with
      | .error _ => .error "Error fetching user trades."
      | .ok ts =>
        if ts.isEmpty then
          .error ("No recent trades found for " ++ symbol ++ ".")
        else
          match find_position_start_time ts current_pos_amount with
          | none => .error noBoundaryMsg
          | some start_time =>
            if start_time = 0 then .error noBoundaryMsg
            else
              match income start_time with
              | .error _ => .error "Error fetching funding history."
              | .ok payments =>
                let total_funding := (payments.map
                  (fun p => p.income)).sum
                let funding_percentage :=
                  if effective_position_value ≠ 0 then
                    total_funding / effective_position_value * 100
                  else 0
                let fee_coverage_progress :=
                  if funding_percentage > 0 then
                    funding_percentage / (135 / 1000) * 100
                  else 0
                .ok { symbol := symbol
                      position_amount := current_pos_amount
                      position_notional := position_notional
                      spot_balance := spot_balance
                      effective_position_value := effective_position_value
                      position_start_time := start_time
                      funding_payments_count := payments.length
                      total_funding := total_funding
                      funding_percentage := funding_percentage
                      fee_coverage_progress := fee_coverage_progress
                      asset := ((payments.head?.map (fun p => p.asset)).getD
                        "USDT") }
  | _, _, _ => .error "Error fetching account or market data."

/-- When no prefix of the backward walk reaches the target within 1e-6, the
walk finds nothing. -/
theorem scanOpen_eq_none (L : List PerpTrade) (running target : ℚ)
    (h : ∀ k, k < L.length →
      |running + ((L.take (k + 1)).map signedQty).sum - target|
        ≥ 1 / 1000000) :
    scanOpen L running target = none := by
  induction L generalizing running with
  | nil => rfl
  | cons t rest ih =>
    have h0 := h 0 (by simp)
    simp only [List.take_succ_cons, List.take_zero, List.map_cons,
      List.map_nil, List.sum_cons, List.sum_nil, add_zero] at h0
    rw [scanOpen, if_neg (not_lt.mpr h0)]
    apply ih
    intro k hk
    have hk' := h (k + 1) (by simpa using Nat.succ_lt_succ hk)
    simp only [List.take_succ_cons, List.map_cons, List.sum_cons] at hk'
    calc |running + signedQty t
          + ((rest.take (k + 1)).map signedQty).sum - target|
        = |running + (signedQty t
            + ((rest.take (k + 1)).map signedQty).sum) - target| := by
          ring_nf
      _ ≥ 1 / 1000000 := hk'

/-- C9: whenever an open position's opening trade cannot be reconstructed
from the fetched trade window — no step of the backward walk over the
time-sorted trades reaches a signed running total equal to the current
position amount within 1e-6 — the funding analysis returns `null` carrying
the documented position-older-than-trade-window message, instead of
attributing funding to a wrong window. -/
theorem funding_analysis_none_outside_window (symbol : String)
    (acc : PerpAccount) (sb : List SpotBalance) (bid ask : ℚ)
    (trades : List PerpTrade) (income : ℤ → Except String (List IncomeRecord))
    (pos : PerpPosition)
    (hpos : acc.positions.find?
      (fun p => p.symbol = symbol ∧ p.positionAmt ≠ 0) = some pos)
    (hne : trades ≠ [])
    (hfar : ∀ k, k < (sortByTime trades).reverse.length →
      |(((sortByTime trades).reverse.take (k + 1)).map signedQty).sum
          - pos.positionAmt| ≥ 1 / 1000000) :
    calculate_funding_for_position symbol (Except.ok acc) (Except.ok sb)
        (Except.ok (bid, ask)) (Except.ok trades) income
      = Except.error noBoundaryMsg := by
  have hscan : find_position_start_time trades pos.positionAmt = none := by
    apply scanOpen_eq_none
    intro k hk
    simpa using hfar k hk
  simp only [calculate_funding_for_position, hpos]
  rw [if_neg (by simpa using hne)]
  rw [hscan]

/-- Witness for C9: a short of 5 BTC whose only windowed trade is a 1 BTC
buy; the running total never comes near −5, so the analysis returns the
documented message. -/
theorem funding_analysis_none_outside_window_witness :
    calculate_funding_for_position "BTCUSDT"
        (Except.ok { assets := [],
                     positions := [{ symbol := "BTCUSDT", positionAmt := -5,
                                     entryPrice := 20000, markPrice := 20000,
                                     unrealizedProfit := 0,
                                     notional := -100000 }] })
        (Except.ok []) (Except.ok (20000, 20001))
        (Except.ok [{ time := 100, qty := 1, side := "BUY" }])
        (fun _ => Except.ok [])
      = Except.error noBoundaryMsg := by
  apply funding_analysis_none_outside_window "BTCUSDT" _ _ _ _ _ _
    { symbol := "BTCUSDT", positionAmt := -5, entryPrice := 20000,
      markPrice := 20000, unrealizedProfit := 0, notional := -100000 }
  · simp [List.find?]
  · simp
  · intro k hk
    have hk0 : k = 0 := by
      simpa [sortByTime, insertByTime] using hk
    subst hk0
    norm_num [sortByTime, insertByTime, signedQty]
    rw [if_neg (by simp : ¬ ("BUY" = "SELL"))]
    rw [show |(1:ℚ) + 5| = 6 from by rw [abs_of_pos] <;> norm_num]
    norm_num

end Aster
